import Mathlib

/-!
# Verification of the `translate` client library (src/translate.go)

A shallow embedding of the token-lifecycle and translation operations of the
Go package `translate`. The HTTP transport, the JSON decoder and the XML
decoder are external to the package; they are modelled as explicit inputs:
each call receives, alongside its arguments, the response the mocked
endpoint would produce, given as an abstract value carrying both the raw
body (used verbatim in error messages) and the decoded view the stdlib
decoder would yield on that body.

Time is modelled by an integer instant `now` passed to each call;
`time.Since(t)` becomes `now - t` and `time.Duration` values are integers in
nanoseconds, as in Go. Each operation additionally returns the list of
observable events it performed (validity checks, lock transitions, HTTP
requests), so that ordering properties such as "no request is issued before
validation" are statable.
-/

/-- Observable steps of a call, in program order. `checkValidity b` records an
evaluation of `token.IsValid()` returning `b`; the three `http*` events record
an outbound request being handed to the HTTP client. -/
inductive Event where
  | checkValidity (result : Bool)
  | lockAcquire
  | lockRelease
  | httpPostForm (url : String)
  | httpGet (url : String)
  | httpPost (url : String)
  deriving DecidableEq

/-- `Config` (translate.go:17-23). -/
structure Config where
  GrantType : String
  ScopeUrl : String
  ClientId : String
  ClientSecret : String
  AuthUrl : String
  deriving DecidableEq

/-- `Token` (translate.go:25-33). `Timestamp` is an instant on the integer
clock; `expiresInDuration` is a `time.Duration`, i.e. nanoseconds in an
int64. The `config` pointer is passed separately to each operation and the
mutex is represented by the lock events in the trace. -/
structure Token where
  AccessToken : String
  ExpiresIn : String
  Timestamp : Int
  expiresInDuration : Int
  deriving DecidableEq

/-- `Token.IsValid` (translate.go:44-47):
`token.expiresInDuration > 0 && time.Since(token.Timestamp) < token.expiresInDuration`. -/
def Token.IsValid (tok : Token) (now : Int) : Bool :=
  decide (0 < tok.expiresInDuration) && decide (now - tok.Timestamp < tok.expiresInDuration)

/-- The view `encoding/json.Unmarshal` produces of an auth-response body when
decoding into `*Token`: either the body is not syntactically valid JSON (the
target is left untouched and an error — discarded at translate.go:77 — is
returned), or it is an object whose `access_token` / `expires_in` members, when
present, are stored into the matching tagged fields. -/
inductive JsonView where
  | invalid
  | obj (accessToken? : Option String) (expiresIn? : Option String)
  deriving DecidableEq

/-- Effect of `json.Unmarshal(respBody, &token)` (translate.go:77) on the token
fields: absent members and an invalid document leave fields unchanged. -/
def applyJsonUnmarshal (tok : Token) : JsonView → Token
  | .invalid => tok
  | .obj a? e? =>
    { tok with AccessToken := a?.getD tok.AccessToken, ExpiresIn := e?.getD tok.ExpiresIn }

/-- Outcome of `client.PostForm` plus the body read in `RefreshIfNeeded`
(translate.go:64-72): a transport error from `PostForm`, a failure of
`ioutil.ReadAll` on the received body, or a complete response with status
code, status line, raw body and its JSON view. -/
inductive AuthResult where
  | transportError (msg : String)
  | readError (msg : String)
  | response (statusCode : Nat) (status : String) (raw : String) (json : JsonView)
  deriving DecidableEq

/-- `strconv.ParseInt(s, 10, 64)` (translate.go:80): an optional single sign,
then one or more decimal digits, value within int64 range; anything else is an
error (`none`). -/
def goParseInt64 (s : String) : Option Int :=
  let cs := s.toList
  let signDigits : Bool × List Char :=
    match cs with
    | [] => (false, [])
    | c :: rest =>
      if c.toNat = 43 then (false, rest)
      else if c.toNat = 45 then (true, rest)
      else (false, cs)
  let ds := signDigits.2
  if ds.isEmpty then none
  else
    match ds.foldlM
        (fun (acc : Nat) (c : Char) =>
          if 48 ≤ c.toNat ∧ c.toNat ≤ 57 then some (acc * 10 + (c.toNat - 48)) else none)
        0 with
    | none => none
    | some n =>
      let v : Int := if signDigits.1 then -(n : Int) else (n : Int)
      if v < -9223372036854775808 ∨ 9223372036854775807 < v then none else some v

/-- Two's-complement wrap of an integer into int64 range, for the Go
multiplication `time.Duration(expiresIn) * time.Second` (translate.go:84). -/
def wrap64 (x : Int) : Int :=
  (x + 9223372036854775808) % 18446744073709551616 - 9223372036854775808

/-- Result of `RefreshIfNeeded`: the (possibly updated) token, the returned
`error` (`none` for nil), and the event trace of the call. -/
structure RefreshOut where
  token : Token
  err : Option String
  trace : List Event
  deriving DecidableEq

/-- `Token.RefreshIfNeeded` (translate.go:49-89). If `IsValid` the call
returns nil at once (translate.go:50-52). Otherwise it takes the mutex,
posts the credential form to `config.AuthUrl`, and processes the response:
a transport error (translate.go:65-67) or a read error (translate.go:70-72)
is returned as-is; a status ≥ 400 yields `Status + ":" + body`
(translate.go:73-75); otherwise `json.Unmarshal`'s error is ignored
(translate.go:77), `Timestamp` is set to now (translate.go:78), and
`expires_in` is parsed — on failure `Invalid expires_in: ...` is returned
(translate.go:80-83), on success the duration is stored (translate.go:84)
and nil returned. The deferred unlock runs on every exit path past the lock. -/
def RefreshIfNeeded (cfg : Config) (tok : Token) (now : Int) (resp : AuthResult) : RefreshOut :=
  if tok.IsValid now then
    { token := tok, err := none, trace := [Event.checkValidity true] }
  else
    let tr : List Event :=
      [Event.checkValidity false, Event.lockAcquire,
       Event.httpPostForm cfg.AuthUrl, Event.lockRelease]
    match resp with
    | .transportError m => { token := tok, err := some m, trace := tr }
    | .readError m => { token := tok, err := some m, trace := tr }
    | .response sc st raw j =>
      if 400 ≤ sc then
        { token := tok, err := some (st ++ ":" ++ raw), trace := tr }
      else
        let tok2 : Token := { applyJsonUnmarshal tok j with Timestamp := now }
        match goParseInt64 tok2.ExpiresIn with
        | none =>
          { token := tok2, err := some ("Invalid expires_in: " ++ tok2.ExpiresIn), trace := tr }
        | some n =>
          { token := { tok2 with expiresInDuration := wrap64 (n * 1000000000) },
            err := none, trace := tr }

/-- Result of `GetTokenWithClient`: the token, the returned error and the
trace. -/
structure GetTokenOut where
  token : Token
  err : Option String
  trace : List Event
  deriving DecidableEq

/-- `GetTokenWithClient` (translate.go:38-42). It builds a zero-valued token
holding the config and calls `RefreshIfNeeded`; the value returned by
`RefreshIfNeeded` is discarded (translate.go:40), so the named `err` result
is still its zero value `nil` at the bare `return` (translate.go:41). -/
def GetTokenWithClient (cfg : Config) (now : Int) (resp : AuthResult) : GetTokenOut :=
  let r := RefreshIfNeeded cfg
    { AccessToken := "", ExpiresIn := "", Timestamp := 0, expiresInDuration := 0 } now resp
  { token := r.token, err := none, trace := r.trace }

/-- Go call outcome: `ok` is a nil-error return with the result value, `err`
is a non-nil error return, and `crash` is a runtime panic (the call never
returns to the caller). -/
inductive GoOutcome (α : Type) where
  | ok (val : α)
  | err (msg : String)
  | crash (msg : String)
  deriving DecidableEq

/-- Result of a translation call: outcome, token after the call, trace. -/
structure CallOut (α : Type) where
  outcome : GoOutcome α
  token : Token
  trace : List Event
  deriving DecidableEq

/-- The panic message of a nil-pointer dereference in the Go runtime. -/
def nilDerefMsg : String := "runtime error: invalid memory address or nil pointer dereference"

/-- One upper-case hexadecimal digit. -/
def hexDigitUpper (n : Nat) : Char :=
  Char.ofNat (if n < 10 then 48 + n else 55 + n)

/-- `url.QueryEscape` on one character: unreserved characters
(alphanumerics, `-._~`, code points 45/95/46/126) are kept, a space (32)
becomes `+`, everything else is percent-encoded. (Go escapes per UTF-8
byte; this model escapes per code point, which agrees on ASCII — no claim
depends on non-ASCII escaping.) -/
def escapeChar (c : Char) : String :=
  let n := c.toNat
  if (65 ≤ n ∧ n ≤ 90) ∨ (97 ≤ n ∧ n ≤ 122) ∨ (48 ≤ n ∧ n ≤ 57)
      ∨ n = 45 ∨ n = 95 ∨ n = 46 ∨ n = 126 then
    String.singleton c
  else if n = 32 then "+"
  else "%" ++ String.singleton (hexDigitUpper (n / 16 % 16)) ++ String.singleton (hexDigitUpper (n % 16))

/-- `url.QueryEscape` (used at translate.go:104). -/
def queryEscape (s : String) : String :=
  String.join (s.toList.map escapeChar)

/-- The view `encoding/xml.Unmarshal` produces of a single-translate response
body when decoding into `*string` (translate.go:112): either the body is not
a well-formed XML string element (`malformed`, carrying the decoder's error
message), or it decodes to the element's character data. -/
inductive XmlStrView where
  | malformed (errMsg : String)
  | strElem (s : String)
  deriving DecidableEq

/-- Outcome of `client.Do` for the single-translate GET (translate.go:109):
a transport error (the response is nil), or a response with status code,
status line, raw body bytes and their XML view. A failed `ioutil.ReadAll`
is absorbed into this view: its error is overwritten at translate.go:112, so
the call proceeds on whatever bytes were read. -/
inductive SingleResult where
  | transportError (msg : String)
  | response (statusCode : Nat) (status : String) (raw : String) (view : XmlStrView)
  deriving DecidableEq

/-- `Token.TranslateWithClient` (translate.go:94-120). The refresh gate runs
first (translate.go:95-97); then `text` and `to` are validated
(translate.go:98-103); the GET URL is built with the escaped text
(translate.go:104-105). On a transport error from `client.Do`, the deferred
`resp.Body.Close()` (translate.go:110) dereferences the nil response and the
call panics. Otherwise the body is XML-decoded before the status test
(translate.go:112-115), so a decode failure returns the decode error; only
then does a status ≥ 400 return `Status + ":" + body` (translate.go:116-118). -/
def TranslateWithClient (cfg : Config) (tok : Token) (now : Int) (authResp : AuthResult)
    (text fromLang toLang : String) (tresp : SingleResult) : CallOut String :=
  let r := RefreshIfNeeded cfg tok now authResp
  match r.err with
  | some e => { outcome := .err e, token := r.token, trace := r.trace }
  | none =>
    if text = "" then
      { outcome := .err "\"text\" is a required parameter", token := r.token, trace := r.trace }
    else if toLang = "" then
      { outcome := .err "\"to\" is a required parameter", token := r.token, trace := r.trace }
    else
      let params := "from=" ++ fromLang ++ "&to=" ++ toLang ++ "&text=" ++ queryEscape text
      let uri := "http://api.microsofttranslator.com/v2/Http.svc/Translate?" ++ params
      let tr := r.trace ++ [Event.httpGet uri]
      match tresp with
      | .transportError _ => { outcome := .crash nilDerefMsg, token := r.token, trace := tr }
      | .response sc st raw view =>
        match view with
        | .malformed m => { outcome := .err m, token := r.token, trace := tr }
        | .strElem s =>
          if 400 ≤ sc then
            { outcome := .err (st ++ ":" ++ raw), token := r.token, trace := tr }
          else
            { outcome := .ok s, token := r.token, trace := tr }

/-- One `TranslateArrayResponse` element of the batch response envelope
(translate.go:176-182). -/
structure TranslateArrayResponse where
  Error : String
  OriginalSentenceLengths : List Int
  TranslatedText : String
  TranslatedSentenceLengths : List Int
  State : String
  deriving DecidableEq

/-- The view `xml.Unmarshal` produces of a batch response body when decoding
into `Response` (translate.go:183-189): a malformed document (carrying the
decoder's error message) or the envelope's list of `TranslateArrayResponse`
elements in document order. -/
inductive ArrayXmlView where
  | malformed (errMsg : String)
  | envelope (responses : List TranslateArrayResponse)
  deriving DecidableEq

/-- Body read of the batch response: `ioutil.ReadAll` may fail
(translate.go:168-171, checked here unlike in the single call), otherwise the
raw bytes and their XML view. -/
inductive ArrayBodyRead where
  | readError (msg : String)
  | content (raw : String) (view : ArrayXmlView)
  deriving DecidableEq

/-- Outcome of `client.Do` for the batch POST (translate.go:166): transport
error (nil response) or a response. -/
inductive ArrayResult where
  | transportError (msg : String)
  | response (statusCode : Nat) (status : String) (body : ArrayBodyRead)
  deriving DecidableEq

/-- `Token.TranslateArrayWithClient` (translate.go:125-199). The refresh gate
runs first (translate.go:126-128); `texts == nil` is rejected
(translate.go:129-131) — `texts` is therefore an `Option`, with `none` for a
nil slice and `some []` for an empty non-nil one — then empty `to`
(translate.go:132-134). The XML request envelope is marshalled (this cannot
fail for these struct types) and POSTed; a transport error panics through the
deferred `resp.Body.Close()` on the nil response (translate.go:167). A read
error is returned (translate.go:169-171), a status ≥ 400 yields
`Status + ":" + body` (translate.go:172-174), a decode failure returns the
decode error (translate.go:189-192), and otherwise the result collects each
element's `TranslatedText` in order (translate.go:194-196). -/
def TranslateArrayWithClient (cfg : Config) (tok : Token) (now : Int) (authResp : AuthResult)
    (texts : Option (List String)) (fromLang toLang : String) (aresp : ArrayResult) :
    CallOut (List String) :=
  let r := RefreshIfNeeded cfg tok now authResp
  match r.err with
  | some e => { outcome := .err e, token := r.token, trace := r.trace }
  | none =>
    match texts with
    | none =>
      { outcome := .err "\"texts\" is a required parameter", token := r.token, trace := r.trace }
    | some _l =>
      if toLang = "" then
        { outcome := .err "\"to\" is a required parameter", token := r.token, trace := r.trace }
      else
        let uri := "http://api.microsofttranslator.com/v2/Http.svc/TranslateArray"
        let tr := r.trace ++ [Event.httpPost uri]
        match aresp with
        | .transportError _ => { outcome := .crash nilDerefMsg, token := r.token, trace := tr }
        | .response sc st body =>
          match body with
          | .readError m => { outcome := .err m, token := r.token, trace := tr }
          | .content raw view =>
            if 400 ≤ sc then
              { outcome := .err (st ++ ":" ++ raw), token := r.token, trace := tr }
            else
              match view with
              | .malformed m => { outcome := .err m, token := r.token, trace := tr }
              | .envelope rs =>
                { outcome := .ok (rs.map TranslateArrayResponse.TranslatedText),
                  token := r.token, trace := tr }

/-- Whether an event is an outbound HTTP request. -/
def Event.isHttp : Event → Bool
  | .httpPostForm _ => true
  | .httpGet _ => true
  | .httpPost _ => true
  | _ => false

/-- Whether an event is the single-translate GET request. -/
def Event.isGet : Event → Bool
  | .httpGet _ => true
  | _ => false

/-- Whether an event is the batch-translate POST request. -/
def Event.isTranslatePost : Event → Bool
  | .httpPost _ => true
  | _ => false

/-- The part of a trace after the first lock acquisition. -/
def afterFirstLock : List Event → List Event
  | [] => []
  | .lockAcquire :: rest => rest
  | _ :: rest => afterFirstLock rest

/-- The part of a trace before the first form POST. -/
def beforeFirstPostForm : List Event → List Event
  | [] => []
  | .httpPostForm _ :: _ => []
  | e :: rest => e :: beforeFirstPostForm rest

/-- Whether a trace contains an evaluation of `IsValid`. -/
def hasValidityCheck (l : List Event) : Bool :=
  l.any fun e =>
    match e with
    | .checkValidity _ => true
    | _ => false

/-- Whether a trace re-checks token validity after taking the lock and before
issuing the token-acquisition form POST — the double-checked-locking shape. -/
def recheckAfterLock (tr : List Event) : Bool :=
  hasValidityCheck (beforeFirstPostForm (afterFirstLock tr))

/-- Naive substring test, used to state that an error message carries (or
fails to carry) a status code. -/
def strContains (hay needle : String) : Bool :=
  (List.range (hay.length + 1)).any fun i => needle.toList.isPrefixOf (hay.toList.drop i)

/-- A sample credentials configuration. -/
def cfgEx : Config :=
  { GrantType := "client_credentials"
    ScopeUrl := "http://api.microsofttranslator.com"
    ClientId := "id"
    ClientSecret := "secret"
    AuthUrl := "https://datamarket.accesscontrol.windows.net/v2/OAuth2-13" }

/-- The zero-valued token `&Token{config: c}` of translate.go:39: empty
strings, zero time, zero duration — stale at any instant. -/
def zeroToken : Token :=
  { AccessToken := "", ExpiresIn := "", Timestamp := 0, expiresInDuration := 0 }

/-- A token issued at instant 0 with a 600-second validity window — fresh at
instant 0. -/
def freshToken : Token :=
  { AccessToken := "tkn", ExpiresIn := "600", Timestamp := 0, expiresInDuration := 600000000000 }

/-- An auth endpoint answering 200 with a well-formed payload. -/
def authOk : AuthResult :=
  .response 200 "200 OK" "\x7b\"access_token\":\"abc\",\"expires_in\":\"600\"\x7d"
    (.obj (some "abc") (some "600"))

/-- An auth endpoint answering 401. -/
def auth401 : AuthResult :=
  .response 401 "401 Unauthorized" "denied" .invalid

/-- A stand-in auth result for calls whose token is fresh (never examined). -/
def authUnused : AuthResult := .transportError "unused"

theorem refresh_trace_cases (cfg : Config) (tok : Token) (now : Int) (resp : AuthResult) :
    (RefreshIfNeeded cfg tok now resp).trace = [Event.checkValidity true] ∨
      (RefreshIfNeeded cfg tok now resp).trace =
        [Event.checkValidity false, Event.lockAcquire,
         Event.httpPostForm cfg.AuthUrl, Event.lockRelease] := by
  unfold RefreshIfNeeded
  split
  · exact Or.inl rfl
  · cases resp with
    | transportError m => exact Or.inr rfl
    | readError m => exact Or.inr rfl
    | response sc st raw j =>
      simp only
      split
      · exact Or.inr rfl
      · split <;> exact Or.inr rfl

theorem refresh_fresh_eq (cfg : Config) (tok : Token) (now : Int) (resp : AuthResult)
    (h : tok.IsValid now = true) :
    RefreshIfNeeded cfg tok now resp =
      { token := tok, err := none, trace := [Event.checkValidity true] } := by
  unfold RefreshIfNeeded
  simp [h]

theorem refresh_stale_trace (cfg : Config) (tok : Token) (now : Int) (resp : AuthResult)
    (h : tok.IsValid now = false) :
    (RefreshIfNeeded cfg tok now resp).trace =
      [Event.checkValidity false, Event.lockAcquire,
       Event.httpPostForm cfg.AuthUrl, Event.lockRelease] := by
  unfold RefreshIfNeeded
  rw [h]
  cases resp with
  | transportError m => rfl
  | readError m => rfl
  | response sc st raw j =>
    simp only [Bool.false_eq_true, if_false]
    split
    · rfl
    · split <;> rfl

/-- C1: the claim says token acquisition on a 401 auth response returns an
error carrying "401". The code is at odds with it: `RefreshIfNeeded` does
build the error `401 Unauthorized:denied`, but `GetTokenWithClient`
(translate.go:40) discards its return value, so the acquisition returns the
token with a nil error. This theorem evaluates the model at the failing
input: a 401 auth endpoint yields `err = none` from `GetTokenWithClient`
while the inner refresh produced an error that does carry "401". -/
theorem getToken_swallows_auth_401_error :
    (GetTokenWithClient cfgEx 0 auth401).err = none ∧
      (RefreshIfNeeded cfgEx zeroToken 0 auth401).err = some "401 Unauthorized:denied" ∧
      strContains "401 Unauthorized:denied" "401" = true := by decide

/-- C2: the claim says a transport failure is returned to the caller as a
normal error and the call never crashes. The code is at odds with it: both
`TranslateWithClient` (translate.go:109-110) and `TranslateArrayWithClient`
(translate.go:166-167) execute `defer resp.Body.Close()` before checking the
error from `client.Do`, so a nil response is dereferenced and the call
panics. This theorem evaluates the model at the failing input: a transport
error makes both calls crash instead of returning the error. -/
theorem translate_crashes_on_transport_failure :
    (TranslateWithClient cfgEx freshToken 0 authUnused "hi" "en" "fr"
        (SingleResult.transportError "connection refused")).outcome =
      GoOutcome.crash nilDerefMsg ∧
      (TranslateArrayWithClient cfgEx freshToken 0 authUnused (some ["hi"]) "en" "fr"
        (ArrayResult.transportError "connection refused")).outcome =
      GoOutcome.crash nilDerefMsg := by decide

/-- C3 counterexample: the claim says the refresh gate re-checks freshness
after acquiring the lock and acquires only if still stale at that point. On
a stale token the code's trace is check-lock-POST-unlock: the acquisition
request is issued with no validity re-check between the lock acquisition and
the POST. -/
theorem refresh_no_recheck_after_lock_cex :
    (RefreshIfNeeded cfgEx zeroToken 0 authOk).trace.countP Event.isHttp = 1 ∧
      recheckAfterLock (RefreshIfNeeded cfgEx zeroToken 0 authOk).trace = false := by decide

/-- C3 amended: if the held token is fresh, `RefreshIfNeeded` performs no
network call and returns nil; if stale, it acquires the lock and performs
token acquisition unconditionally — without re-checking freshness after
acquiring the lock. -/
theorem refresh_gate_amended (cfg : Config) (tok : Token) (now : Int) (resp : AuthResult) :
    (tok.IsValid now = true →
        RefreshIfNeeded cfg tok now resp =
          { token := tok, err := none, trace := [Event.checkValidity true] }) ∧
      (tok.IsValid now = false →
        (RefreshIfNeeded cfg tok now resp).trace =
          [Event.checkValidity false, Event.lockAcquire,
           Event.httpPostForm cfg.AuthUrl, Event.lockRelease]) :=
  ⟨refresh_fresh_eq cfg tok now resp, refresh_stale_trace cfg tok now resp⟩

/-- C3 amended, witnessed on a fresh token: the fast path is a no-op. -/
theorem refresh_gate_amended_witness :
    RefreshIfNeeded cfgEx freshToken 0 authUnused =
      { token := freshToken, err := none, trace := [Event.checkValidity true] } :=
  (refresh_gate_amended cfgEx freshToken 0 authUnused).1 (by decide)

/-- C7: for a token with positive validity duration, `IsValid` holds exactly
when the elapsed time since issuance is strictly below the duration
(translate.go:44-47). -/
theorem isValid_iff_elapsed_lt_duration (tok : Token) (now : Int)
    (hpos : 0 < tok.expiresInDuration) :
    tok.IsValid now = true ↔ now - tok.Timestamp < tok.expiresInDuration := by
  simp [Token.IsValid, hpos]

/-- C7, witnessed: a token with a 600-second window is valid 3ns after
issuance. -/
theorem isValid_iff_elapsed_lt_duration_witness :
    0 < freshToken.expiresInDuration ∧
      (freshToken.IsValid 3 = true ↔
        (3 : Int) - freshToken.Timestamp < freshToken.expiresInDuration) :=
  ⟨by decide, isValid_iff_elapsed_lt_duration freshToken 3 (by decide)⟩

/-- An auth endpoint answering 200 with a body that is not valid JSON. -/
def authBadJson : AuthResult := .response 200 "200 OK" "not json at all" .invalid

/-- C4 counterexample: the claim says `Translate("", "en", "fr")` returns the
validation error before any HTTP request. On a stale token the code invokes
the refresh gate first (translate.go:95) and only then validates `text`
(translate.go:98), so the validation error is returned after a
token-acquisition request has already been issued. -/
theorem translate_empty_text_http_before_validation_cex :
    (TranslateWithClient cfgEx zeroToken 0 authOk "" "en" "fr"
        (SingleResult.transportError "never reached")).outcome =
      GoOutcome.err "\"text\" is a required parameter" ∧
      (TranslateWithClient cfgEx zeroToken 0 authOk "" "en" "fr"
          (SingleResult.transportError "never reached")).trace.countP Event.isHttp = 1 := by
  decide

/-- C4 amended: when the refresh gate succeeds, `Translate` with empty text
returns the validation error naming "text" and never issues the translation
GET; but the validation runs only after the refresh gate, so an HTTP
token-acquisition request may precede it — no HTTP request at all occurs only
when the held token is fresh. -/
theorem translate_empty_text_amended (cfg : Config) (tok : Token) (now : Int)
    (authResp : AuthResult) (fromLang toLang : String) (tresp : SingleResult)
    (hre : (RefreshIfNeeded cfg tok now authResp).err = none) :
    (TranslateWithClient cfg tok now authResp "" fromLang toLang tresp).outcome =
        GoOutcome.err "\"text\" is a required parameter" ∧
      (TranslateWithClient cfg tok now authResp "" fromLang toLang tresp).trace.countP
          Event.isGet = 0 ∧
      (tok.IsValid now = true →
        (TranslateWithClient cfg tok now authResp "" fromLang toLang tresp).trace.countP
            Event.isHttp = 0) := by
  have hT : TranslateWithClient cfg tok now authResp "" fromLang toLang tresp =
      { outcome := GoOutcome.err "\"text\" is a required parameter",
        token := (RefreshIfNeeded cfg tok now authResp).token,
        trace := (RefreshIfNeeded cfg tok now authResp).trace } := by
    simp only [TranslateWithClient, hre, if_true]
  refine ⟨by rw [hT], ?_, ?_⟩
  · rw [hT]
    rcases refresh_trace_cases cfg tok now authResp with h | h <;>
      simp only [h] <;> rfl
  · intro hv
    rw [hT, refresh_fresh_eq cfg tok now authResp hv]
    rfl

/-- C4 amended, witnessed: with a fresh token the validation error comes back
with no HTTP traffic at all. -/
theorem translate_empty_text_amended_witness :
    (TranslateWithClient cfgEx freshToken 0 authUnused "" "en" "fr"
        (SingleResult.transportError "x")).outcome =
      GoOutcome.err "\"text\" is a required parameter" :=
  (translate_empty_text_amended cfgEx freshToken 0 authUnused "en" "fr"
    (SingleResult.transportError "x") (by decide)).1

/-- C5 counterexample: the claim says a failing refresh — including an
unparsable response payload — surfaces an error and leaves the token state
unchanged. On a 200 response whose body is not JSON, `json.Unmarshal`'s
error is discarded (translate.go:77), the issuance timestamp is overwritten
(translate.go:78) and the previously stored `expires_in` string still parses
(translate.go:80), so the call returns nil: no error is surfaced, the
timestamp changed, and the stale token is reported valid again with its old
access-token string. -/
theorem refresh_unparsable_payload_mutates_token_cex :
    (RefreshIfNeeded cfgEx freshToken 1000000000000 authBadJson).err = none ∧
      (RefreshIfNeeded cfgEx freshToken 1000000000000 authBadJson).token.Timestamp ≠
        freshToken.Timestamp ∧
      (RefreshIfNeeded cfgEx freshToken 1000000000000 authBadJson).token.AccessToken =
        freshToken.AccessToken ∧
      (RefreshIfNeeded cfgEx freshToken 1000000000000 authBadJson).token.IsValid
          1000000000000 = true := by
  decide

/-- C5 amended: on a transport error, a body-read error or a non-2xx status,
`RefreshIfNeeded` surfaces the error and leaves the token unchanged, so a
subsequent call retries. On a 2xx response with an unparsable payload,
however, the decode error is ignored: the issuance timestamp is overwritten
with the current instant (the access-token string is kept), and the call
returns nil exactly when the previously stored `expires_in` string parses —
otherwise an `Invalid expires_in` error is returned, the timestamp already
mutated. -/
theorem refresh_failure_amended (cfg : Config) (tok : Token) (now : Int) (resp : AuthResult)
    (hstale : tok.IsValid now = false) :
    (∀ m, resp = AuthResult.transportError m →
        (RefreshIfNeeded cfg tok now resp).err = some m ∧
          (RefreshIfNeeded cfg tok now resp).token = tok) ∧
      (∀ m, resp = AuthResult.readError m →
        (RefreshIfNeeded cfg tok now resp).err = some m ∧
          (RefreshIfNeeded cfg tok now resp).token = tok) ∧
      (∀ sc st raw j, resp = AuthResult.response sc st raw j → 400 ≤ sc →
        (RefreshIfNeeded cfg tok now resp).err = some (st ++ ":" ++ raw) ∧
          (RefreshIfNeeded cfg tok now resp).token = tok) ∧
      (∀ sc st raw, resp = AuthResult.response sc st raw JsonView.invalid → sc < 400 →
        (RefreshIfNeeded cfg tok now resp).token.Timestamp = now ∧
          (RefreshIfNeeded cfg tok now resp).token.AccessToken = tok.AccessToken ∧
          ((RefreshIfNeeded cfg tok now resp).err = none ↔
            (goParseInt64 tok.ExpiresIn).isSome = true)) := by
  refine ⟨?_, ?_, ?_, ?_⟩
  · rintro m rfl
    unfold RefreshIfNeeded
    rw [hstale]
    exact ⟨rfl, rfl⟩
  · rintro m rfl
    unfold RefreshIfNeeded
    rw [hstale]
    exact ⟨rfl, rfl⟩
  · rintro sc st raw j rfl h400
    unfold RefreshIfNeeded
    rw [hstale]
    simp [h400]
  · rintro sc st raw rfl hlt
    unfold RefreshIfNeeded
    rw [hstale]
    simp only [Bool.false_eq_true, if_false, if_neg (Nat.not_le.mpr hlt), applyJsonUnmarshal]
    cases hp : goParseInt64 tok.ExpiresIn <;> simp [hp]

/-- C5 amended, witnessed: a transport error surfaces unchanged and leaves
the token untouched. -/
theorem refresh_failure_amended_witness :
    (RefreshIfNeeded cfgEx zeroToken 0 (AuthResult.transportError "no route to host")).err =
        some "no route to host" ∧
      (RefreshIfNeeded cfgEx zeroToken 0 (AuthResult.transportError "no route to host")).token =
        zeroToken :=
  (refresh_failure_amended cfgEx zeroToken 0 (AuthResult.transportError "no route to host")
    (by decide)).1 "no route to host" rfl

/-- C6: on a stale token, the acquisition section of `RefreshIfNeeded` issues
exactly one HTTP request; a transport failure returns the underlying error
and a non-2xx status returns `Status + ":" + body` (translate.go:64-75), and
in both cases the token is left unchanged, so no token for which `IsValid`
holds is ever constructed on these failure paths. -/
theorem acquisition_failure_no_usable_token (cfg : Config) (tok : Token) (now : Int)
    (resp : AuthResult) (hstale : tok.IsValid now = false) :
    (RefreshIfNeeded cfg tok now resp).trace.countP Event.isHttp = 1 ∧
      (∀ m, resp = AuthResult.transportError m →
        (RefreshIfNeeded cfg tok now resp).err = some m ∧
          (RefreshIfNeeded cfg tok now resp).token = tok ∧
          (RefreshIfNeeded cfg tok now resp).token.IsValid now = false) ∧
      (∀ sc st raw j, resp = AuthResult.response sc st raw j → 400 ≤ sc →
        (RefreshIfNeeded cfg tok now resp).err = some (st ++ ":" ++ raw) ∧
          (RefreshIfNeeded cfg tok now resp).token = tok ∧
          (RefreshIfNeeded cfg tok now resp).token.IsValid now = false) := by
  refine ⟨?_, ?_, ?_⟩
  · rw [refresh_stale_trace cfg tok now resp hstale]
    rfl
  · rintro m rfl
    unfold RefreshIfNeeded
    rw [hstale]
    exact ⟨rfl, rfl, hstale⟩
  · rintro sc st raw j rfl h400
    have h1 := (refresh_failure_amended cfg tok now (AuthResult.response sc st raw j)
      hstale).2.2.1 sc st raw j rfl h400
    exact ⟨h1.1, h1.2, by rw [h1.2]; exact hstale⟩

/-- C6, witnessed: a stale zero token refreshed against a 401 endpoint keeps
an error, an unchanged token and `IsValid = false`. -/
theorem acquisition_failure_no_usable_token_witness :
    (RefreshIfNeeded cfgEx zeroToken 0 auth401).err = some "401 Unauthorized:denied" ∧
      (RefreshIfNeeded cfgEx zeroToken 0 auth401).token = zeroToken ∧
      (RefreshIfNeeded cfgEx zeroToken 0 auth401).token.IsValid 0 = false :=
  (acquisition_failure_no_usable_token cfgEx zeroToken 0 auth401 (by decide)).2.2 401
    "401 Unauthorized" "denied" JsonView.invalid rfl (by decide)

/-- A batch response element translating to "bonjour". -/
def respBonjour : TranslateArrayResponse :=
  { Error := "", OriginalSentenceLengths := [], TranslatedText := "bonjour",
    TranslatedSentenceLengths := [], State := "" }

/-- A batch response element translating to "monde". -/
def respMonde : TranslateArrayResponse :=
  { Error := "", OriginalSentenceLengths := [], TranslatedText := "monde",
    TranslatedSentenceLengths := [], State := "" }

/-- C8: on a successful batch call whose response decodes to an envelope of
`TranslateArrayResponse` elements, the result is exactly those elements'
`TranslatedText` values in document order (translate.go:194-196), so its
length equals the number of response elements. -/
theorem translateArray_preserves_order_and_length (cfg : Config) (tok : Token) (now : Int)
    (authResp : AuthResult) (texts : List String) (fromLang toLang : String)
    (sc : Nat) (st raw : String) (rs : List TranslateArrayResponse)
    (hne : texts ≠ []) (hto : toLang ≠ "")
    (hre : (RefreshIfNeeded cfg tok now authResp).err = none) (hsc : sc < 400) :
    (TranslateArrayWithClient cfg tok now authResp (some texts) fromLang toLang
        (ArrayResult.response sc st
          (ArrayBodyRead.content raw (ArrayXmlView.envelope rs)))).outcome =
      GoOutcome.ok (rs.map TranslateArrayResponse.TranslatedText) ∧
      (rs.map TranslateArrayResponse.TranslatedText).length = rs.length := by
  refine ⟨?_, by simp⟩
  simp only [TranslateArrayWithClient, hre, if_neg hto, if_neg (Nat.not_le.mpr hsc)]

/-- C8, witnessed: input `["hello","world"]` with a mocked envelope listing
"bonjour" then "monde" yields exactly `["bonjour","monde"]`. -/
theorem translateArray_preserves_order_and_length_witness :
    (TranslateArrayWithClient cfgEx freshToken 0 authUnused (some ["hello", "world"]) "en" "fr"
        (ArrayResult.response 200 "200 OK"
          (ArrayBodyRead.content "xml" (ArrayXmlView.envelope [respBonjour, respMonde])))).outcome =
      GoOutcome.ok ["bonjour", "monde"] :=
  (translateArray_preserves_order_and_length cfgEx freshToken 0 authUnused ["hello", "world"]
    "en" "fr" 200 "200 OK" "xml" [respBonjour, respMonde] (by decide) (by decide) (by decide)
    (by decide)).1

/-- C9 counterexample: the claim says every non-2xx `Translate` response
yields an error carrying the status and the body. The code decodes the body
before testing the status (translate.go:112-116), so a 500 response whose
body is not a well-formed XML string returns the decoder's error, which
carries neither the status nor the body. -/
theorem translate_non2xx_undecodable_body_cex :
    (TranslateWithClient cfgEx freshToken 0 authUnused "hi" "en" "fr"
        (SingleResult.response 500 "500 Internal Server Error" "<bad"
          (XmlStrView.malformed "XML syntax error on line 1: unexpected EOF"))).outcome =
      GoOutcome.err "XML syntax error on line 1: unexpected EOF" ∧
      strContains "XML syntax error on line 1: unexpected EOF" "500" = false ∧
      strContains "XML syntax error on line 1: unexpected EOF" "<bad" = false := by
  decide

/-- C9 amended: for a non-2xx `Translate` response whose body decodes as a
bare XML string, the call returns the error `Status + ":" + body` and no
translated string; when the body fails to decode, the decode error is
returned instead — also with no translated string, but without the status. -/
theorem translate_non2xx_amended (cfg : Config) (tok : Token) (now : Int)
    (authResp : AuthResult) (text fromLang toLang : String) (sc : Nat) (st raw : String)
    (view : XmlStrView)
    (hre : (RefreshIfNeeded cfg tok now authResp).err = none)
    (htext : text ≠ "") (hto : toLang ≠ "") (hsc : 400 ≤ sc) :
    (∀ s, view = XmlStrView.strElem s →
        (TranslateWithClient cfg tok now authResp text fromLang toLang
            (SingleResult.response sc st raw view)).outcome =
          GoOutcome.err (st ++ ":" ++ raw)) ∧
      (∀ m, view = XmlStrView.malformed m →
        (TranslateWithClient cfg tok now authResp text fromLang toLang
            (SingleResult.response sc st raw view)).outcome = GoOutcome.err m) := by
  constructor
  · rintro s rfl
    simp only [TranslateWithClient, hre, if_neg htext, if_neg hto, if_pos hsc]
  · rintro m rfl
    simp only [TranslateWithClient, hre, if_neg htext, if_neg hto]

/-- C9 amended, witnessed: a 500 response with a decodable body comes back as
`500 Internal Server Error:<x/>`. -/
theorem translate_non2xx_amended_witness :
    (TranslateWithClient cfgEx freshToken 0 authUnused "hi" "en" "fr"
        (SingleResult.response 500 "500 Internal Server Error" "<x/>"
          (XmlStrView.strElem "x"))).outcome =
      GoOutcome.err "500 Internal Server Error:<x/>" :=
  (translate_non2xx_amended cfgEx freshToken 0 authUnused "hi" "en" "fr" 500
    "500 Internal Server Error" "<x/>" (XmlStrView.strElem "x") (by decide) (by decide)
    (by decide) (by decide)).1 "x" rfl

/-- C10: with a succeeding refresh gate and a non-empty target language,
`TranslateArrayWithClient` rejects exactly a nil `texts` slice with the
"texts" required-parameter error and no translation POST (translate.go:129-131),
while every non-nil slice — including the empty slice and slices containing
empty strings — passes validation and causes the translation POST to be
issued. -/
theorem translateArray_nil_vs_empty_validation (cfg : Config) (tok : Token) (now : Int)
    (authResp : AuthResult) (fromLang toLang : String) (aresp : ArrayResult)
    (hre : (RefreshIfNeeded cfg tok now authResp).err = none) (hto : toLang ≠ "") :
    ((TranslateArrayWithClient cfg tok now authResp none fromLang toLang aresp).outcome =
        GoOutcome.err "\"texts\" is a required parameter" ∧
      (TranslateArrayWithClient cfg tok now authResp none fromLang toLang
          aresp).trace.countP Event.isTranslatePost = 0) ∧
      ∀ l : List String,
        (TranslateArrayWithClient cfg tok now authResp (some l) fromLang toLang
            aresp).trace.countP Event.isTranslatePost = 1 := by
  have hnone : TranslateArrayWithClient cfg tok now authResp none fromLang toLang aresp =
      { outcome := GoOutcome.err "\"texts\" is a required parameter",
        token := (RefreshIfNeeded cfg tok now authResp).token,
        trace := (RefreshIfNeeded cfg tok now authResp).trace } := by
    simp only [TranslateArrayWithClient, hre]
  have hsome : ∀ l : List String,
      (TranslateArrayWithClient cfg tok now authResp (some l) fromLang toLang aresp).trace =
        (RefreshIfNeeded cfg tok now authResp).trace ++
          [Event.httpPost "http://api.microsofttranslator.com/v2/Http.svc/TranslateArray"] := by
    intro l
    simp only [TranslateArrayWithClient, hre, if_neg hto]
    cases aresp with
    | transportError m => rfl
    | response sc st body =>
      cases body with
      | readError m => rfl
      | content raw view =>
        by_cases h4 : 400 ≤ sc
        · simp only [if_pos h4]
        · simp only [if_neg h4]
          cases view <;> rfl
  refine ⟨⟨by rw [hnone], ?_⟩, ?_⟩
  · rw [hnone]
    rcases refresh_trace_cases cfg tok now authResp with h | h <;> simp only [h] <;> rfl
  · intro l
    rw [hsome l]
    rcases refresh_trace_cases cfg tok now authResp with h | h <;> rw [h] <;> rfl

/-- C10, witnessed: a nil slice is rejected with the "texts" error, while the
one-element slice containing the empty string passes validation and the POST
is issued. -/
theorem translateArray_nil_vs_empty_validation_witness :
    (TranslateArrayWithClient cfgEx freshToken 0 authUnused none "en" "fr"
        (ArrayResult.transportError "x")).outcome =
        GoOutcome.err "\"texts\" is a required parameter" ∧
      (TranslateArrayWithClient cfgEx freshToken 0 authUnused (some [""]) "en" "fr"
          (ArrayResult.transportError "x")).trace.countP Event.isTranslatePost = 1 :=
  ⟨((translateArray_nil_vs_empty_validation cfgEx freshToken 0 authUnused "en" "fr"
      (ArrayResult.transportError "x") (by decide) (by decide)).1).1,
    (translateArray_nil_vs_empty_validation cfgEx freshToken 0 authUnused "en" "fr"
      (ArrayResult.transportError "x") (by decide) (by decide)).2 [""]⟩
